import Mathlib

/-!
Verification development for the PyOTRS client library (src/lib.py): a shallow
embedding of its session lifecycle and request/response protocol engine.

Modelling conventions:
* JSON values (`json.loads` results, payload dictionaries) are modelled by `JVal`.
  Dictionaries are association lists with unique keys; lookup takes the first match.
* Python exceptions surface as the `PyErr` error type of `Except`.  `d.get(k)` on a
  dictionary is `pyDictGet` (raises `AttributeError` on non-dicts, like Python);
  `d[k]` is `pyIndex` (raises `KeyError` / `TypeError`).
* Machine integers are `Int` (Python ints are unbounded, so no modular wrap).
* File system state for the session store is abstracted to owner uid, permission
  mode bits and the `json.loads` outcome of the file content.
-/

/-- JSON value as produced by `response.json()` / consumed by `json.dumps`. -/
inductive JVal where
  | jnull
  | jbool (b : Bool)
  | jnum (n : Int)
  | jstr (s : String)
  | jarr (xs : List JVal)
  | jobj (fields : List (String × JVal))

/-- Python exceptions that the embedded code can raise. -/
inductive PyErr where
  | apiError (code msg : JVal)
  | responseParseError
  | valueError
  | typeError
  | keyError (k : String)
  | attributeError
  | ioError (msg : String)
  | sessionNotCreated
  | sessionCreateError
  | argumentMissingError (msg : String)
  | argumentInvalidError
  | httpError
  | genericException

/-- First-match lookup in an association list (Python dict access; keys are unique). -/
def lookupKey {α : Type} : List (String × α) → String → Option α
  | [], _ => none
  | (k, v) :: rest, key => if k == key then some v else lookupKey rest key

/-- Python truthiness of a JSON value (`bool(x)`). -/
def truthy : JVal → Bool
  | .jnull => false
  | .jbool b => b
  | .jnum n => n != 0
  | .jstr s => s != ""
  | .jarr xs => !xs.isEmpty
  | .jobj fs => !fs.isEmpty

/-- Truthiness of `d.get(k, None)`: absent keys behave like `None`. -/
def truthyOpt : Option JVal → Bool
  | some v => truthy v
  | none => false

/-- Python `d.get(k, None)`: association lookup on dicts, `AttributeError` otherwise. -/
def pyDictGet : JVal → String → Except PyErr (Option JVal)
  | .jobj fs, k => .ok (lookupKey fs k)
  | _, _ => .error .attributeError

/-- Python `d[k]`: `KeyError` when the key is absent, `TypeError` when `d` is not
a dict (Python would raise `TypeError` for non-subscriptable values; string/list
subscripting by a string key is also a `TypeError`). -/
def pyIndex : JVal → String → Except PyErr JVal
  | .jobj fs, k =>
    match lookupKey fs k with
    | some v => .ok v
    | none => .error (.keyError k)
  | _, _ => .error .typeError

/-- Python `int(x)` on a JSON value: ints pass through, bools count as 0/1,
decimal string literals parse, anything else raises (`ValueError` for
non-numeric strings, `TypeError` for null/list/dict). -/
def pyInt : JVal → Except PyErr Int
  | .jnum n => .ok n
  | .jbool b => .ok (if b then 1 else 0)
  | .jstr s =>
    match s.toInt? with
    | some n => .ok n
    | none => .error .valueError
  | _ => .error .typeError

/-- Python `needle in haystack` for strings: substring containment.  Used because
`src/lib.py` line 1937 and 1947 test `self.operation in "LinkList"` and
`self.operation in "PublicFAQSearch"` (substring tests, not list membership). -/
def strSubstr (needle haystack : String) : Bool :=
  (List.range (haystack.toList.length + 1)).any
    (fun i => ((haystack.toList.drop i).take needle.toList.length) == needle.toList)

/-- Python `x == 1` for an optional JSON value (`d.get("Success", None) == 1`).
Python numeric equality treats `True` as equal to `1`. -/
def pyEqOne : Option JVal → Bool
  | some (.jnum 1) => true
  | some (.jbool true) => true
  | _ => false

/-- Python `code == "PublicFAQSearch.NotFAQData"`: equality with a string literal
is `False` for any non-string value. -/
def isNotFAQDataCode : JVal → Bool
  | .jstr s => s == "PublicFAQSearch.NotFAQData"
  | _ => false

/-- Operation descriptor from the connector configuration tables:
HTTP method, URL route template, and the response key holding the result. -/
structure OperationSpec where
  requestMethod : String
  route : String
  result : String

/-- Name of the ticket connector web service (`TICKET_CONNECTOR_CONFIG_DEFAULT['Name']`). -/
def ticketConnectorName : String := "KomandConnectorREST"

/-- Name of the FAQ connector web service. -/
def faqConnectorName : String := "GenericFAQConnectorREST"

/-- Name of the link connector web service. -/
def linkConnectorName : String := "GenericLinkConnectorREST"

/-- `TICKET_CONNECTOR_CONFIG_DEFAULT['Config']` from src/lib.py lines 23-45. -/
def ticketConnectorConfig : List (String × OperationSpec) :=
  [("SessionCreate", ⟨"POST", "/Session", "SessionID"⟩),
   ("TicketCreate", ⟨"POST", "/Ticket", "TicketID"⟩),
   ("TicketGet", ⟨"GET", "/Ticket/:TicketID", "Ticket"⟩),
   ("TicketGetList", ⟨"GET", "/TicketList", "Ticket"⟩),
   ("TicketSearch", ⟨"GET", "/Search", "TicketID"⟩),
   ("TicketUpdate", ⟨"PATCH", "/Update/:TicketID", "TicketID"⟩)]

/-- `FAQ_CONNECTOR_CONFIG_DEFAULT['Config']` from src/lib.py lines 47-63. -/
def faqConnectorConfig : List (String × OperationSpec) :=
  [("LanguageList", ⟨"GET", "/LanguageList", "Language"⟩),
   ("PublicCategoryList", ⟨"GET", "/PublicCategoryList", "Category"⟩),
   ("PublicFAQGet", ⟨"GET", "/PublicFAQGet", "FAQItem"⟩),
   ("PublicFAQSearch", ⟨"POST", "/PublicFAQSearch", "ID"⟩)]

/-- `LINK_CONNECTOR_CONFIG_DEFAULT['Config']` from src/lib.py lines 65-90. -/
def linkConnectorConfig : List (String × OperationSpec) :=
  [("LinkAdd", ⟨"POST", "/LinkAdd", "LinkAdd"⟩),
   ("LinkDelete", ⟨"DELETE", "/LinkDelete", "LinkDelete"⟩),
   ("LinkDeleteAll", ⟨"DELETE", "/LinkDeleteAll", "LinkDeleteAll"⟩),
   ("LinkList", ⟨"GET", "/LinkList", "LinkList"⟩),
   ("PossibleLinkList", ⟨"GET", "/PossibleLinkList", "PossibleLinkList"⟩),
   ("PossibleObjectsList", ⟨"GET", "/PossibleObjectsList", "PossibleObject"⟩),
   ("PossibleTypesList", ⟨"GET", "/PossibleTypesList", "PossibleType"⟩)]

/-- The merged `self.ws_config` dictionary (src/lib.py lines 927-931): the three
connector tables merged via `dict.update`; their key sets are disjoint. -/
def wsConfig : List (String × OperationSpec) :=
  ticketConnectorConfig ++ faqConnectorConfig ++ linkConnectorConfig

/-- `self.ws_config[op]` as an optional lookup. -/
def wsConfigLookup (op : String) : Option OperationSpec := lookupKey wsConfig op

/-- `self.routes_ticket` (src/lib.py line 923): routes of the ticket connector. -/
def routesTicket : List String := ticketConnectorConfig.map (fun p => p.2.route)

/-- `self.routes_faq` (src/lib.py line 924). -/
def routesFaq : List String := faqConnectorConfig.map (fun p => p.2.route)

/-- `self.routes_link` (src/lib.py line 925). -/
def routesLink : List String := linkConnectorConfig.map (fun p => p.2.route)

/-- Ticket domain object produced by `Ticket(dct)` (src/lib.py line 500).  The
field-by-field marshaling of tickets/articles is an external collaborator of the
core (spec section 1); we record the constructor argument, which must be a
mapping (`self.fields.update(dct)` raises on non-mappings). -/
structure TicketObj where
  fields : List (String × JVal)

/-- Construct a `Ticket` from one JSON item; non-mapping arguments raise. -/
def mkTicket : JVal → Except PyErr TicketObj
  | .jobj fs => .ok ⟨fs⟩
  | _ => .error .typeError

/-- Construct tickets from a list of items, stopping at the first failure. -/
def mkTickets : List JVal → Except PyErr (List TicketObj)
  | [] => .ok []
  | x :: xs =>
    match mkTicket x with
    | .error e => .error e
    | .ok t =>
      match mkTickets xs with
      | .error e => .error e
      | .ok ts => .ok (t :: ts)

/-- Python `for item in v`: lists yield elements, dicts yield their keys,
strings yield one-character strings, other values raise `TypeError`. -/
def pyIterate : JVal → Except PyErr (List JVal)
  | .jarr xs => .ok xs
  | .jobj fs => .ok (fs.map (fun p => .jstr p.1))
  | .jstr s => .ok (s.toList.map (fun c => .jstr (String.mk [c])))
  | _ => .error .typeError

/-- The value left in `self.result` by `_parse_and_validate_response`: either a
raw JSON value or (for the ticket-fetch operations) a list of wrapped tickets. -/
inductive PyResult where
  | val (v : JVal)
  | tickets (ts : List TicketObj)

/-- Generic classification path of `_parse_and_validate_response`
(src/lib.py lines 1957-1974): response key with a truthy value wins, else a
truthy `Error` object raises `APIError` carrying `Error.ErrorCode` and
`Error.ErrorMessage`, else `ResponseParseError`. -/
def genericPath (resultType : String) (rj : JVal) : Except PyErr JVal :=
  match pyDictGet rj resultType with
  | .error e => .error e
  | .ok v =>
    if truthyOpt v then .ok (v.getD .jnull)
    else
      match pyDictGet rj "Error" with
      | .error e => .error e
      | .ok eOpt =>
        if truthyOpt eOpt then
          match pyIndex rj "Error" with
          | .error e => .error e
          | .ok errObj =>
            match pyIndex errObj "ErrorCode" with
            | .error e => .error e
            | .ok code =>
              match pyIndex errObj "ErrorMessage" with
              | .error e => .error e
              | .ok msg => .error (.apiError code msg)
        else .error .responseParseError

/-- Step 7 post-processing (src/lib.py lines 1977-1978): for `TicketGet` and
`TicketGetList` wrap each entry of `result_json["Ticket"]` in a `Ticket`. -/
def parsePost (operation : String) (rj : JVal) (res : JVal) : Except PyErr PyResult :=
  if operation == "TicketGet" || operation == "TicketGetList" then
    match pyIndex rj "Ticket" with
    | .error e => .error e
    | .ok tv =>
      match pyIterate tv with
      | .error e => .error e
      | .ok items =>
        match mkTickets items with
        | .error e => .error e
        | .ok ts => .ok (.tickets ts)
  else .ok (.val res)

/-- Generic rule followed by post-processing (tail of `_parse_and_validate_response`). -/
def parseGeneric (operation resultType : String) (rj : JVal) : Except PyErr PyResult :=
  match genericPath resultType rj with
  | .error e => .error e
  | .ok res => parsePost operation rj res

/-- PublicFAQSearch special case (src/lib.py lines 1947-1955): an empty result
list under the declared key is a success (empty list) only when
`result_json["Error"]["ErrorCode"]` equals the no-FAQ-data code; note the code
indexes `Error` directly, which raises `KeyError` when absent.  Any other empty
result falls through; a truthy result is returned as-is. -/
def parseFAQStep (operation resultType : String) (rj : JVal) : Except PyErr PyResult :=
  if strSubstr operation "PublicFAQSearch" then
    match pyDictGet rj resultType with
    | .error e => .error e
    | .ok l =>
      if !truthyOpt l then
        match pyIndex rj "Error" with
        | .error e => .error e
        | .ok errObj =>
          match pyIndex errObj "ErrorCode" with
          | .error e => .error e
          | .ok code =>
            if isNotFAQDataCode code then .ok (.val (.jarr []))
            else parseGeneric operation resultType rj
      else .ok (.val (l.getD .jnull))
  else parseGeneric operation resultType rj

/-- LinkList special case (src/lib.py lines 1937-1944): an absent or falsy
`LinkList` field yields success with result `None`; a truthy one is returned
as-is.  Both arms return, so this branch never falls through. -/
def parseLinkListStep (operation resultType : String) (rj : JVal) : Except PyErr PyResult :=
  if strSubstr operation "LinkList" then
    match pyDictGet rj "LinkList" with
    | .error e => .error e
    | .ok l =>
      if !truthyOpt l then .ok (.val .jnull)
      else .ok (.val (l.getD .jnull))
  else parseFAQStep operation resultType rj

/-- Link mutation special case (src/lib.py lines 1932-1934): LinkAdd, LinkDelete
and LinkDeleteAll succeed exactly when `result_json.get("Success") == 1`
(with `self.result` left as `None`); otherwise the check falls through. -/
def parseLinkMutStep (operation resultType : String) (rj : JVal) : Except PyErr PyResult :=
  if operation == "LinkAdd" || operation == "LinkDelete" || operation == "LinkDeleteAll" then
    match pyDictGet rj "Success" with
    | .error e => .error e
    | .ok s =>
      if pyEqOne s then .ok (.val .jnull)
      else parseLinkListStep operation resultType rj
  else parseLinkListStep operation resultType rj

/-- TicketSearch special case (src/lib.py lines 1923-1929): a falsy parsed body
is success with the empty list; a truthy declared key gives `result_json["TicketID"]`;
otherwise the check falls through. -/
def parseTicketSearchStep (operation resultType : String) (rj : JVal) : Except PyErr PyResult :=
  if operation == "TicketSearch" then
    if !truthy rj then .ok (.val (.jarr []))
    else
      match pyDictGet rj resultType with
      | .error e => .error e
      | .ok v =>
        if truthyOpt v then
          match pyIndex rj "TicketID" with
          | .error e => .error e
          | .ok tv => .ok (.val tv)
        else parseLinkMutStep operation resultType rj
  else parseLinkMutStep operation resultType rj

/-- `Client._parse_and_validate_response` (src/lib.py lines 1891-1980) given the
operation name and the parsed JSON body `rj`.  An unknown operation raises
`ValueError` (line 1911); otherwise the special cases run in source order and the
returned value is the final `self.result`. -/
def parseAndValidateResponse (operation : String) (rj : JVal) : Except PyErr PyResult :=
  match wsConfigLookup operation with
  | none => .error .valueError
  | some spec => parseTicketSearchStep operation spec.result rj

/-- Outcome discriminator: did the call raise `APIError`? -/
def isAPIError {α : Type} : Except PyErr α → Bool
  | .error (.apiError _ _) => true
  | _ => false

/-- Outcome discriminator: did the call raise `ArgumentMissingError`? -/
def isArgumentMissing {α : Type} : Except PyErr α → Bool
  | .error (.argumentMissingError _) => true
  | _ => false

/-- On-disk credential file as observed by `os.lstat` and `open`: owner uid,
permission mode bits, and the outcome of `json.loads` on its content
(`none` models content that is not valid JSON, a `ValueError`). -/
structure FileRecord where
  uid : Nat
  mode : Nat
  parsed : Option JVal

/-- File system state at the session store path. -/
inductive FSState where
  | noFile
  | file (f : FileRecord)

/-- Trust predicate of `SessionStore._validate_file_owner_and_permissions`
(src/lib.py lines 834-846) for an existing file: the owner uid must equal the
process uid and the mode bits masked with 0o777 must equal 384 (0o600). -/
def trustedFile (f : FileRecord) (procUid : Nat) : Bool :=
  f.uid == procUid && (f.mode &&& 511 == 384)

/-- `SessionStore._validate_file_owner_and_permissions` (src/lib.py lines
820-846): raises `IOError` when the path is not a file, else reports trust. -/
def validateFileOwnerAndPermissions (fs : FSState) (procUid : Nat) : Except PyErr Bool :=
  match fs with
  | .noFile => .error (.ioError "Does not exist or not a file")
  | .file f => .ok (trustedFile f procUid)

/-- `SessionStore.read` (src/lib.py lines 748-778).  `timeoutMinutes` is the
configured session timeout: the code computes the expiry as
`created + datetime.timedelta(minutes=self.timeout)`, so the window is
`timeoutMinutes * 60` seconds.  Timestamps are epoch seconds as `Int`
(`datetime.datetime.utcfromtimestamp` on in-range ints is exact).
The `try` block returns `None` on `ValueError` (bad JSON, non-numeric `created`
string) and `KeyError` (missing fields); any other exception, e.g. the
`TypeError` from `int` on a null/list/dict `created`, is re-raised as a generic
`Exception` (line 778).  Falling past the expiry test returns `None`. -/
def sessionStoreRead (fs : FSState) (procUid : Nat) (timeoutMinutes now : Int) :
    Except PyErr (Option JVal) :=
  match fs with
  | .noFile => .ok none
  | .file f =>
    if !trustedFile f procUid then .ok none
    else
      match f.parsed with
      | none => .ok none
      | some data =>
        match pyIndex data "session_id" with
        | .error (.keyError _) => .ok none
        | .error _ => .error .genericException
        | .ok v =>
          match pyIndex data "created" with
          | .error (.keyError _) => .ok none
          | .error _ => .error .genericException
          | .ok c =>
            match pyInt c with
            | .error .valueError => .ok none
            | .error _ => .error .genericException
            | .ok created =>
              if now < created + timeoutMinutes * 60 then .ok (some v)
              else .ok none

/-- `SessionStore.write` (src/lib.py lines 780-804).  When the file exists but
fails the trust check the write is refused with `IOError` before anything is
written.  Otherwise the record `{"created": str(int(time.time())), "session_id":
new_value}` is written and the mode forced to 384 (0o600); `postFs` is the file
state observed by the post-write re-validation (in a race-free run it is the
freshly written file: owned by the process, mode 384).  A failing re-validation
raises the race-condition `IOError`; otherwise the call returns `True`. -/
def sessionStoreWrite (fs : FSState) (procUid : Nat) (_newValue : String)
    (postFs : FSState) : Except PyErr Bool :=
  let afterWrite : Except PyErr Bool :=
    match postFs with
    | .noFile => .error (.ioError "Does not exist or not a file")
    | .file g =>
      if !trustedFile g procUid then
        .error (.ioError "Race condition: Something happened to file during the run!")
      else .ok true
  match fs with
  | .file f =>
    if !trustedFile f procUid then
      .error (.ioError "File exists but is not ok (wrong owner/permissions)!")
    else afterWrite
  | .noFile => afterWrite

/-- Observable side effects of `Client.session_restore_or_set_up_new`:
the validity probe (a `TicketGet` round trip), writes to the session id store,
and the session-create round trip. -/
inductive SessionAction where
  | probe (token : String)
  | storeWrite (value : String)
  | createSession

/-- `Client.session_restore_or_set_up_new` (src/lib.py lines 1020-1062), with
the collaborating calls abstracted by their outcomes:
`readResult` is `self.session_id_store.read()`; `probeResult` the outcome of
`session_check_is_valid` (returns `True` or raises); `createResult` the outcome
of `session_create` (which on success sets the in-memory store value to
`newSessionId`); `writeEmptyResult` and `writeNewResult` the outcomes of the two
`session_id_store.write` calls.  Only `APIError` from the probe is caught
(line 1046); every other probe failure propagates.  The function returns the
result, the list of performed actions in order, and the final in-memory store
value (`SessionStore.write` assigns `self.value` before it can raise). -/
def sessionRestoreOrSetUpNew (readResult : Option String)
    (probeResult : Except PyErr Bool) (createResult : Except PyErr Bool)
    (newSessionId : String) (writeEmptyResult writeNewResult : Except PyErr Bool) :
    Except PyErr Bool × List SessionAction × Option String :=
  let createFresh : List SessionAction → Except PyErr Bool × List SessionAction × Option String :=
    fun tr =>
      match writeEmptyResult with
      | .error e => (.error e, tr ++ [.storeWrite ""], some "")
      | .ok _ =>
        match createResult with
        | .error e => (.error e, tr ++ [.storeWrite "", .createSession], some "")
        | .ok false =>
          (.error .sessionCreateError, tr ++ [.storeWrite "", .createSession], some "")
        | .ok true =>
          match writeNewResult with
          | .error e =>
            (.error e, tr ++ [.storeWrite "", .createSession, .storeWrite newSessionId],
              some newSessionId)
          | .ok false =>
            (.error (.ioError "Failed to save Session ID to file!"),
              tr ++ [.storeWrite "", .createSession, .storeWrite newSessionId],
              some newSessionId)
          | .ok true =>
            (.ok true, tr ++ [.storeWrite "", .createSession, .storeWrite newSessionId],
              some newSessionId)
  match readResult with
  | none => createFresh []
  | some v =>
    if v == "" then createFresh []
    else
      match probeResult with
      | .ok true => (.ok true, [.probe v], some v)
      | .ok false => createFresh [.probe v]
      | .error (.apiError _ _) => createFresh [.probe v]
      | .error e => (.error e, [.probe v], some v)

/-- Truthiness of an optional ticket id argument (`not ticket_id` is true for
`None` and for `0`). -/
def optIntTruthy : Option Int → Bool
  | none => false
  | some n => n != 0

/-- Split a character list at every occurrence of the separator. -/
def splitCharList (sep : Char) : List Char → List (List Char)
  | [] => [[]]
  | c :: cs =>
    let rest := splitCharList sep cs
    if c == sep then [] :: rest
    else
      match rest with
      | r :: rs => (c :: r) :: rs
      | [] => [[c]]

/-- Python `s.split(sep)` for a one-character separator. -/
def pySplit (s : String) (sep : Char) : List String :=
  (splitCharList sep s.toList).map (fun cs => String.mk cs)

/-- `Client._build_url` (src/lib.py lines 1796-1830).  A route containing `:`
is split; when the parameter is `TicketID` a falsy ticket id raises `ValueError`
(line 1815) and otherwise the ticket connector URL is built.  A parameterised
route with any other parameter name, or a parameterless route matching none of
the three connectors, leaves `self._url` unassigned so `return self._url`
raises `AttributeError`.  An unknown operation raises `KeyError` at the
`self.ws_config[self.operation]` lookup (line 1806). -/
def buildUrl (baseurl wsPath : String) (operation : String) (ticketId : Option Int) :
    Except PyErr String :=
  match wsConfigLookup operation with
  | none => .error (.keyError operation)
  | some spec =>
    let route := spec.route
    if strSubstr ":" route then
      let parts := pySplit route ':'
      let route0 := parts.headD ""
      let routeArg := (parts.drop 1).headD ""
      if routeArg == "TicketID" then
        if !optIntTruthy ticketId then .error .valueError
        else .ok (baseurl ++ wsPath ++ ticketConnectorName ++ route0
                   ++ toString (ticketId.getD 0))
      else .error .attributeError
    else
      if routesTicket.contains route then
        .ok (baseurl ++ wsPath ++ ticketConnectorName ++ route)
      else if routesFaq.contains route then
        .ok (baseurl ++ wsPath ++ faqConnectorName ++ route)
      else if routesLink.contains route then
        .ok (baseurl ++ wsPath ++ linkConnectorName ++ route)
      else .error .attributeError

/-- Prefix of `Client._send_request` before the network call (src/lib.py lines
1848-1858): the payload truthiness check, the result-type lookup, the URL
construction, and the HTTP method whitelist.  Reaching `.ok` means the code
would proceed to the `requests.request` network round trip with the returned
method and URL; every `.error` outcome is raised before any network I/O. -/
def sendRequestPreNetwork (baseurl wsPath operation : String) (payloadTruthy : Bool)
    (ticketId : Option Int) : Except PyErr (String × String) :=
  if !payloadTruthy then .error (.argumentMissingError "payload")
  else
    match wsConfigLookup operation with
    | none => .error (.keyError operation)
    | some spec =>
      match buildUrl baseurl wsPath operation ticketId with
      | .error e => .error e
      | .ok url =>
        let m := spec.requestMethod
        if m == "DELETE" || m == "GET" || m == "HEAD" || m == "PATCH"
            || m == "POST" || m == "PUT" then .ok (m, url)
        else .error .valueError

/-- Truthiness of `self.session_id_store.value` (`None` or a string). -/
def optStrTruthy : Option String → Bool
  | none => false
  | some s => s != ""

/-- Truthiness of an optional list argument (`None` and `[]` are falsy). -/
def optListTruthy {α : Type} : Option (List α) → Bool
  | none => false
  | some xs => !xs.isEmpty

/-- The `"SessionID"` payload entry built from the in-memory store value. -/
def sessJ : Option String → JVal
  | some s => .jstr s
  | none => .jnull

/-- Python `int(b)` for the boolean request flags. -/
def boolToInt (b : Bool) : Int := if b then 1 else 0

/-- Observable outcome of a client operation method up to the transport
boundary: either an exception raised before `_send_request` is reached, or the
operation name, ticket id argument and payload handed to `_send_request`.
`sent` marks exactly the point where the HTTP request would be attempted. -/
inductive CallStage where
  | failed (e : PyErr)
  | sent (operation : String) (ticketId : Option Int) (payload : List (String × JVal))

/-- Replace or append a key in a payload dictionary (`dict.update` on one key). -/
def setField (fields : List (String × JVal)) (k : String) (v : JVal) :
    List (String × JVal) :=
  if (lookupKey fields k).isSome then
    fields.map (fun p => if p.1 == k then (k, v) else p)
  else fields ++ [(k, v)]

/-- Default map of `Article.validate` (src/lib.py lines 258-263). -/
def articleDefaults : List (String × JVal) :=
  [("Body", .jstr "API created Article Body"), ("Charset", .jstr "UTF8"),
   ("MimeType", .jstr "text/plain"), ("Subject", .jstr "API created Article"),
   ("TimeUnit", .jnum 0)]

/-- `Article.validate` (src/lib.py lines 244-267) with the default validation
map: every required field whose current value is absent or falsy is set to the
default.  The article is modelled by its field dictionary (its `to_dct`
marshaling is an external collaborator per spec section 1). -/
def articleValidate (fields : List (String × JVal)) : List (String × JVal) :=
  articleDefaults.foldl
    (fun fs p => if truthyOpt (lookupKey fs p.1) then fs else setField fs p.1 p.2) fields

/-- `Client.ticket_create` (src/lib.py lines 1068-1116) up to the transport
boundary.  `ticket` and `article` are the `to_dct` dictionaries of the domain
objects (`None` models a missing argument); `attachments` and `dynamicFields`
the `to_dct` lists. -/
def ticket_create (v : Option String) (ticket article : Option (List (String × JVal)))
    (attachments dynamicFields : Option (List JVal)) : CallStage :=
  if !optStrTruthy v then .failed .sessionNotCreated
  else
    match ticket with
    | none => .failed (.argumentMissingError "Ticket")
    | some t =>
      match article with
      | none => .failed (.argumentMissingError "Article")
      | some a =>
        let p := [("SessionID", sessJ v)] ++ t ++ [("Article", JVal.jobj (articleValidate a))]
        let p := if optListTruthy attachments then
            p ++ [("Attachment", JVal.jarr (attachments.getD []))] else p
        let p := if optListTruthy dynamicFields then
            p ++ [("DynamicField", JVal.jarr (dynamicFields.getD []))] else p
        .sent "TicketCreate" none p

/-- `Client.ticket_get_by_id` (src/lib.py lines 1125-1165) up to the transport
boundary.  The ticket id is formatted into a string in the payload. -/
def ticket_get_by_id (v : Option String) (ticketId : Int)
    (articles attachments dynamicFields htmlBodyAsAttachment : Bool) : CallStage :=
  if !optStrTruthy v then .failed .sessionNotCreated
  else
    .sent "TicketGet" (some ticketId)
      [("SessionID", sessJ v), ("TicketID", .jstr (toString ticketId)),
       ("AllArticles", .jnum (boolToInt articles)),
       ("Attachments", .jnum (boolToInt attachments)),
       ("DynamicFields", .jnum (boolToInt dynamicFields)),
       ("HTMLBodyAsAttachment", .jnum (boolToInt htmlBodyAsAttachment))]

/-- `Client.ticket_get_by_list` (src/lib.py lines 1167-1209) up to the transport
boundary.  `none` models an argument that is not a list (the `isinstance`
check raises `ArgumentInvalidError`); ids are joined with commas. -/
def ticket_get_by_list (v : Option String) (ticketIdList : Option (List Int))
    (articles attachments dynamicFields htmlBodyAsAttachment : Bool) : CallStage :=
  if !optStrTruthy v then .failed .sessionNotCreated
  else
    match ticketIdList with
    | none => .failed .argumentInvalidError
    | some ids =>
      .sent "TicketGetList" none
        [("SessionID", sessJ v),
         ("TicketID", .jstr (String.intercalate "," (ids.map toString))),
         ("AllArticles", .jnum (boolToInt articles)),
         ("Attachments", .jnum (boolToInt attachments)),
         ("DynamicFields", .jnum (boolToInt dynamicFields)),
         ("HTMLBodyAsAttachment", .jnum (boolToInt htmlBodyAsAttachment))]

/-- `Client.ticket_search` (src/lib.py lines 1264-1305) up to the transport
boundary.  `dynamicFieldsSearch` models the merged `to_dct_search` entries and
`kwargs` the keyword arguments (datetimes already formatted, an external
marshaling step). -/
def ticket_search (v : Option String)
    (dynamicFieldsSearch kwargs : List (String × JVal)) : CallStage :=
  if !optStrTruthy v then .failed .sessionNotCreated
  else .sent "TicketSearch" none ([("SessionID", sessJ v)] ++ dynamicFieldsSearch ++ kwargs)

/-- `Client.ticket_update` (src/lib.py lines 1331-1381) up to the transport
boundary: attachments require an article, keyword arguments are nested under
`"Ticket"`. -/
def ticket_update (v : Option String) (ticketId : Int)
    (article : Option (List (String × JVal))) (attachments dynamicFields : Option (List JVal))
    (kwargs : List (String × JVal)) : CallStage :=
  if !optStrTruthy v then .failed .sessionNotCreated
  else
    let p := [("SessionID", sessJ v), ("TicketID", JVal.jnum ticketId)]
    let p := match article with
      | some a => p ++ [("Article", JVal.jobj (articleValidate a))]
      | none => p
    if optListTruthy attachments && article.isNone then
      .failed (.argumentMissingError "To create an attachment an article is needed!")
    else
      let p := if optListTruthy attachments then
          p ++ [("Attachment", JVal.jarr (attachments.getD []))] else p
      let p := if optListTruthy dynamicFields then
          p ++ [("DynamicField", JVal.jarr (dynamicFields.getD []))] else p
      let p := if !kwargs.isEmpty then p ++ [("Ticket", JVal.jobj kwargs)] else p
      .sent "TicketUpdate" (some ticketId) p

/-- `Client.faq_language_list` (src/lib.py lines 1415-1428) up to the transport
boundary. -/
def faq_language_list (v : Option String) : CallStage :=
  if !optStrTruthy v then .failed .sessionNotCreated
  else .sent "LanguageList" none [("SessionID", sessJ v)]

/-- `Client.faq_category_list` (src/lib.py lines 1430-1443) up to the transport
boundary. -/
def faq_category_list (v : Option String) : CallStage :=
  if !optStrTruthy v then .failed .sessionNotCreated
  else .sent "PublicCategoryList" none [("SessionID", sessJ v)]

/-- `Client.faq_public_faq_get` (src/lib.py lines 1445-1479) up to the transport
boundary.  Item ids are modelled as an integer list; `None` and the empty list
are falsy and raise `ArgumentMissingError`. -/
def faq_public_faq_get (v : Option String) (itemIds : Option (List Int))
    (attachmentContents : Bool) : CallStage :=
  if !optStrTruthy v then .failed .sessionNotCreated
  else if !optListTruthy itemIds then .failed (.argumentMissingError "item_ids is required")
  else
    let p := [("SessionID", sessJ v),
              ("ItemID", JVal.jstr (String.intercalate "," ((itemIds.getD []).map toString)))]
    let p := if !attachmentContents then p ++ [("GetAttachmentContents", JVal.jnum 0)] else p
    .sent "PublicFAQGet" none p

/-- `Client.faq_public_faq_search` (src/lib.py lines 1481-1536) up to the
transport boundary: optional `What`, `Number` and `Title` entries, then a
truthy `search_dict` must be a dict (else `ArgumentInvalidError`) and is merged
into the payload. -/
def faq_public_faq_search (v : Option String) (what number title : Option String)
    (searchDict : Option JVal) : CallStage :=
  if !optStrTruthy v then .failed .sessionNotCreated
  else
    let p := [("SessionID", sessJ v)]
    let p := match what with
      | some s => if s != "" then p ++ [("What", JVal.jstr s)] else p
      | none => p
    let p := match number with
      | some s => if s != "" then p ++ [("Number", JVal.jstr s)] else p
      | none => p
    let p := match title with
      | some s => if s != "" then p ++ [("Title", JVal.jstr s)] else p
      | none => p
    match searchDict with
    | some sd =>
      if truthy sd then
        match sd with
        | .jobj fs => .sent "PublicFAQSearch" none (p ++ fs)
        | _ => .failed .argumentInvalidError
      else .sent "PublicFAQSearch" none p
    | none => .sent "PublicFAQSearch" none p

/-- `Client.link_add` (src/lib.py lines 1542-1580) up to the transport boundary. -/
def link_add (v : Option String) (srcObjectId dstObjectId : Int)
    (srcObjectType dstObjectType linkType state : String) : CallStage :=
  if !optStrTruthy v then .failed .sessionNotCreated
  else
    .sent "LinkAdd" none
      [("SessionID", sessJ v), ("SourceObject", .jstr srcObjectType),
       ("SourceKey", .jnum srcObjectId), ("TargetObject", .jstr dstObjectType),
       ("TargetKey", .jnum dstObjectId), ("Type", .jstr linkType),
       ("State", .jstr state)]

/-- `Client.link_delete` (src/lib.py lines 1586-1621) up to the transport boundary. -/
def link_delete (v : Option String) (srcObjectId dstObjectId : Int)
    (srcObjectType dstObjectType linkType : String) : CallStage :=
  if !optStrTruthy v then .failed .sessionNotCreated
  else
    .sent "LinkDelete" none
      [("SessionID", sessJ v), ("Object1", .jstr srcObjectType),
       ("Key1", .jnum srcObjectId), ("Object2", .jstr dstObjectType),
       ("Key2", .jnum dstObjectId), ("Type", .jstr linkType)]

/-- `Client.link_delete_all` (src/lib.py lines 1627-1652) up to the transport
boundary. -/
def link_delete_all (v : Option String) (objectId : Int) (objectType : String) : CallStage :=
  if !optStrTruthy v then .failed .sessionNotCreated
  else
    .sent "LinkDeleteAll" none
      [("SessionID", sessJ v), ("Object", .jstr objectType), ("Key", .jnum objectId)]

/-- `Client.link_list` (src/lib.py lines 1658-1703) up to the transport
boundary: optional destination type, link type and direction entries. -/
def link_list (v : Option String) (srcObjectId : Int) (srcObjectType : String)
    (dstObjectType : Option String) (state : String)
    (linkType direction : Option String) : CallStage :=
  if !optStrTruthy v then .failed .sessionNotCreated
  else
    let p := [("SessionID", sessJ v), ("Object", JVal.jstr srcObjectType),
              ("Key", JVal.jnum srcObjectId), ("State", JVal.jstr state)]
    let p := match dstObjectType with
      | some s => if s != "" then p ++ [("Object2", JVal.jstr s)] else p
      | none => p
    let p := match linkType with
      | some s => if s != "" then p ++ [("Type", JVal.jstr s)] else p
      | none => p
    let p := match direction with
      | some s => if s != "" then p ++ [("Direction", JVal.jstr s)] else p
      | none => p
    .sent "LinkList" none p

/-- `Client.link_possible_link_list` (src/lib.py lines 1709-1728) up to the
transport boundary. -/
def link_possible_link_list (v : Option String) : CallStage :=
  if !optStrTruthy v then .failed .sessionNotCreated
  else .sent "PossibleLinkList" none [("SessionID", sessJ v)]

/-- `Client.link_possible_objects_list` (src/lib.py lines 1734-1759) up to the
transport boundary. -/
def link_possible_objects_list (v : Option String) (objectType : String) : CallStage :=
  if !optStrTruthy v then .failed .sessionNotCreated
  else .sent "PossibleObjectsList" none [("SessionID", sessJ v), ("Object", .jstr objectType)]

/-- `Client.link_possible_types_list` (src/lib.py lines 1765-1794) up to the
transport boundary. -/
def link_possible_types_list (v : Option String) (srcObjectType dstObjectType : String) :
    CallStage :=
  if !optStrTruthy v then .failed .sessionNotCreated
  else
    .sent "PossibleTypesList" none
      [("SessionID", sessJ v), ("Object1", .jstr srcObjectType),
       ("Object2", .jstr dstObjectType)]

/-! ## Helper lemmas -/

/-- A successful association lookup means the list is nonempty. -/
theorem lookupKey_some_not_nil {α : Type} {fs : List (String × α)} {k : String} {v : α}
    (h : lookupKey fs k = some v) : fs.isEmpty = false := by
  cases fs with
  | nil => simp [lookupKey] at h
  | cons a l => rfl

/-- A successful `d[k]` lookup implies the dictionary is truthy (nonempty). -/
theorem pyIndex_ok_truthy {e : JVal} {k : String} {c : JVal}
    (h : pyIndex e k = .ok c) : truthy e = true := by
  cases e with
  | jobj fs =>
    cases hl : lookupKey fs k with
    | none => simp [pyIndex, hl] at h
    | some v => simp [truthy, lookupKey_some_not_nil hl]
  | jnull => simp [pyIndex] at h
  | jbool b => simp [pyIndex] at h
  | jnum n => simp [pyIndex] at h
  | jstr s => simp [pyIndex] at h
  | jarr xs => simp [pyIndex] at h

/-- Dispatch of `_parse_and_validate_response` for the `LinkList` operation:
the TicketSearch and link-mutation checks do not match. -/
theorem parse_dispatch_linkList (rj : JVal) :
    parseAndValidateResponse "LinkList" rj
      = parseLinkListStep "LinkList" "LinkList" rj := rfl

/-- Evaluation of the LinkList branch on a dictionary response. -/
theorem parseLinkListStep_obj (fs : List (String × JVal)) :
    parseLinkListStep "LinkList" "LinkList" (.jobj fs)
      = (if !truthyOpt (lookupKey fs "LinkList") then .ok (.val .jnull)
         else .ok (.val ((lookupKey fs "LinkList").getD .jnull))) := rfl

/-- Dispatch of `_parse_and_validate_response` for the `TicketSearch` operation. -/
theorem parse_dispatch_ticketSearch (rj : JVal) :
    parseAndValidateResponse "TicketSearch" rj
      = parseTicketSearchStep "TicketSearch" "TicketID" rj := rfl

/-- Dispatch of `_parse_and_validate_response` for the `PublicFAQSearch` operation. -/
theorem parse_dispatch_publicFAQSearch (rj : JVal) :
    parseAndValidateResponse "PublicFAQSearch" rj
      = parseFAQStep "PublicFAQSearch" "ID" rj := rfl

/-- Evaluation of the three link-mutation branches on a dictionary response:
`Success == 1` wins, anything else falls through to the generic rule (the
LinkList / PublicFAQSearch substring checks do not match these names). -/
theorem parse_linkAdd_eval (fs : List (String × JVal)) :
    parseAndValidateResponse "LinkAdd" (.jobj fs)
      = (if pyEqOne (lookupKey fs "Success") then .ok (.val .jnull)
         else parseGeneric "LinkAdd" "LinkAdd" (.jobj fs)) := rfl

/-- Evaluation of the `LinkDelete` branch on a dictionary response. -/
theorem parse_linkDelete_eval (fs : List (String × JVal)) :
    parseAndValidateResponse "LinkDelete" (.jobj fs)
      = (if pyEqOne (lookupKey fs "Success") then .ok (.val .jnull)
         else parseGeneric "LinkDelete" "LinkDelete" (.jobj fs)) := rfl

/-- Evaluation of the `LinkDeleteAll` branch on a dictionary response. -/
theorem parse_linkDeleteAll_eval (fs : List (String × JVal)) :
    parseAndValidateResponse "LinkDeleteAll" (.jobj fs)
      = (if pyEqOne (lookupKey fs "Success") then .ok (.val .jnull)
         else parseGeneric "LinkDeleteAll" "LinkDeleteAll" (.jobj fs)) := rfl

/-- For operations without ticket post-processing, the generic tail is the
generic classification with the result wrapped as a raw value. -/
theorem parseGeneric_map_val (op rt : String) (rj : JVal)
    (h1 : (op == "TicketGet") = false) (h2 : (op == "TicketGetList") = false) :
    parseGeneric op rt rj = (genericPath rt rj).map PyResult.val := by
  unfold parseGeneric
  cases hg : genericPath rt rj <;> simp [parsePost, h1, h2, Except.map]

/-- Dispatch of `_parse_and_validate_response` to the generic rule for any
operation matching none of the four special-case checks. -/
theorem parse_dispatch_generic (op : String) (spec : OperationSpec) (rj : JVal)
    (hlk : wsConfigLookup op = some spec)
    (hts : (op == "TicketSearch") = false)
    (hlm : (op == "LinkAdd" || op == "LinkDelete" || op == "LinkDeleteAll") = false)
    (hll : strSubstr op "LinkList" = false)
    (hfq : strSubstr op "PublicFAQSearch" = false) :
    parseAndValidateResponse op rj = parseGeneric op spec.result rj := by
  unfold parseAndValidateResponse
  rw [hlk]
  unfold parseTicketSearchStep parseLinkMutStep parseLinkListStep parseFAQStep
  simp [hts, hlm, hll, hfq]

/-! ## Claim C1 -/

/-- C1 is false on the code: for the LinkList operation a response containing a
present `Error` object (and no `LinkList` field) is classified as success with
a null result; `APIError` is not raised. -/
theorem c1_counterexample :
    parseAndValidateResponse "LinkList"
        (.jobj [("Error", .jobj [("ErrorCode", .jstr "x"), ("ErrorMessage", .jstr "y")])])
      = .ok (.val .jnull) ∧
    isAPIError (parseAndValidateResponse "LinkList"
        (.jobj [("Error", .jobj [("ErrorCode", .jstr "x"), ("ErrorMessage", .jstr "y")])]))
      = false :=
  ⟨rfl, rfl⟩

/-- C1 (amended): for the link-listing operation an absent or empty `LinkList`
field yields success with a null result and a present truthy value is returned
as-is; the LinkList branch returns success in both arms and never reaches the
`APIError` path, so a response with a present `Error` object and absent
`LinkList` also yields success-with-null rather than `APIError`. -/
theorem c1_linkList_classification (rj : JVal) :
    isAPIError (parseAndValidateResponse "LinkList" rj) = false ∧
    (∀ fs, rj = .jobj fs →
      (truthyOpt (lookupKey fs "LinkList") = false →
        parseAndValidateResponse "LinkList" rj = .ok (.val .jnull)) ∧
      (∀ v, lookupKey fs "LinkList" = some v → truthy v = true →
        parseAndValidateResponse "LinkList" rj = .ok (.val v))) := by
  constructor
  · rw [parse_dispatch_linkList]
    cases rj with
    | jobj fs =>
      rw [parseLinkListStep_obj]
      split <;> rfl
    | jnull => rfl
    | jbool b => rfl
    | jnum n => rfl
    | jstr s => rfl
    | jarr xs => rfl
  · rintro fs rfl
    rw [parse_dispatch_linkList, parseLinkListStep_obj]
    constructor
    · intro h
      simp [h]
    · intro v hv htv
      simp [hv, truthyOpt, htv]

/-- Witness for C1 at concrete responses. -/
theorem c1_linkList_classification_witness :
    isAPIError (parseAndValidateResponse "LinkList"
        (.jobj [("Error", .jobj [("ErrorCode", .jstr "x"), ("ErrorMessage", .jstr "y")])]))
      = false ∧
    parseAndValidateResponse "LinkList" (.jobj []) = .ok (.val .jnull) ∧
    parseAndValidateResponse "LinkList" (.jobj [("LinkList", .jstr "L")])
      = .ok (.val (.jstr "L")) :=
  ⟨(c1_linkList_classification _).1,
   ((c1_linkList_classification (.jobj [])).2 [] rfl).1 rfl,
   ((c1_linkList_classification (.jobj [("LinkList", .jstr "L")])).2
      [("LinkList", .jstr "L")] rfl).2 (.jstr "L") rfl rfl⟩

/-! ## Claim C7 -/

/-- C7: for the TicketSearch operation a falsy parsed body yields success with
the empty list, and a dictionary body whose declared result key `TicketID` holds
a truthy value yields success with that value verbatim. -/
theorem c7_ticket_search_classification (rj : JVal) :
    (truthy rj = false →
      parseAndValidateResponse "TicketSearch" rj = .ok (.val (.jarr []))) ∧
    (∀ fs v, rj = .jobj fs → lookupKey fs "TicketID" = some v → truthy v = true →
      parseAndValidateResponse "TicketSearch" rj = .ok (.val v)) := by
  constructor
  · intro h
    rw [parse_dispatch_ticketSearch]
    simp [parseTicketSearchStep, h]
  · rintro fs v rfl hv htv
    rw [parse_dispatch_ticketSearch]
    have hne : truthy (.jobj fs) = true := by
      simp [truthy, lookupKey_some_not_nil hv]
    simp [parseTicketSearchStep, hne, pyDictGet, hv, truthyOpt, htv, pyIndex]

/-- Witness for C7 at concrete responses. -/
theorem c7_ticket_search_classification_witness :
    truthy (.jobj []) = false ∧
    parseAndValidateResponse "TicketSearch" (.jobj []) = .ok (.val (.jarr [])) ∧
    parseAndValidateResponse "TicketSearch" (.jobj [("TicketID", .jarr [.jnum 3])])
      = .ok (.val (.jarr [.jnum 3])) :=
  ⟨rfl, (c7_ticket_search_classification (.jobj [])).1 rfl,
   (c7_ticket_search_classification (.jobj [("TicketID", .jarr [.jnum 3])])).2
     [("TicketID", .jarr [.jnum 3])] (.jarr [.jnum 3]) rfl rfl rfl⟩

/-! ## Claim C8 -/

/-- C8: for each of LinkAdd, LinkDelete and LinkDeleteAll, the special-case
check classifies the response as success exactly when `Success == 1` under
Python equality (this accepts `1` and `True`); otherwise classification falls
through to the generic path (declared result key / `Error` object /
`ResponseParseError`). -/
theorem c8_link_mutation_success (op : String)
    (hop : op = "LinkAdd" ∨ op = "LinkDelete" ∨ op = "LinkDeleteAll")
    (fs : List (String × JVal)) :
    (pyEqOne (lookupKey fs "Success") = true →
      parseAndValidateResponse op (.jobj fs) = .ok (.val .jnull)) ∧
    (pyEqOne (lookupKey fs "Success") = false →
      parseAndValidateResponse op (.jobj fs)
        = (genericPath op (.jobj fs)).map PyResult.val) := by
  rcases hop with rfl | rfl | rfl <;>
    refine ⟨fun h => ?_, fun h => ?_⟩
  · rw [parse_linkAdd_eval, h]; rfl
  · rw [parse_linkAdd_eval, h]
    simp [parseGeneric_map_val "LinkAdd" "LinkAdd" _ rfl rfl]
  · rw [parse_linkDelete_eval, h]; rfl
  · rw [parse_linkDelete_eval, h]
    simp [parseGeneric_map_val "LinkDelete" "LinkDelete" _ rfl rfl]
  · rw [parse_linkDeleteAll_eval, h]; rfl
  · rw [parse_linkDeleteAll_eval, h]
    simp [parseGeneric_map_val "LinkDeleteAll" "LinkDeleteAll" _ rfl rfl]

/-- Witness for C8 at concrete responses: `Success: 1` succeeds; `Success: 2`
falls through to the generic path (here an `APIError`). -/
theorem c8_link_mutation_success_witness :
    pyEqOne (lookupKey [("Success", JVal.jnum 1)] "Success") = true ∧
    parseAndValidateResponse "LinkAdd" (.jobj [("Success", .jnum 1)])
      = .ok (.val .jnull) ∧
    parseAndValidateResponse "LinkDelete"
        (.jobj [("Success", .jnum 2),
                ("Error", .jobj [("ErrorCode", .jstr "c"), ("ErrorMessage", .jstr "m")])])
      = (genericPath "LinkDelete"
          (.jobj [("Success", .jnum 2),
                  ("Error", .jobj [("ErrorCode", .jstr "c"), ("ErrorMessage", .jstr "m")])])).map
          PyResult.val :=
  ⟨rfl,
   (c8_link_mutation_success "LinkAdd" (Or.inl rfl) [("Success", .jnum 1)]).1 rfl,
   (c8_link_mutation_success "LinkDelete" (Or.inr (Or.inl rfl))
      [("Success", .jnum 2),
       ("Error", .jobj [("ErrorCode", .jstr "c"), ("ErrorMessage", .jstr "m")])]).2 rfl⟩

/-- Successful `d[k]` on a dictionary with the key present. -/
theorem pyIndex_obj_some {fs : List (String × JVal)} {k : String} {v : JVal}
    (h : lookupKey fs k = some v) : pyIndex (.jobj fs) k = .ok v := by
  simp [pyIndex, h]

/-- Failing `d[k]` on a dictionary with the key absent. -/
theorem pyIndex_obj_none {fs : List (String × JVal)} {k : String}
    (h : lookupKey fs k = none) : pyIndex (.jobj fs) k = .error (.keyError k) := by
  simp [pyIndex, h]

/-- Evaluation of the generic classification on a dictionary response. -/
theorem genericPath_obj (rt : String) (fs : List (String × JVal)) :
    genericPath rt (.jobj fs)
      = (if truthyOpt (lookupKey fs rt) then .ok ((lookupKey fs rt).getD .jnull)
         else if truthyOpt (lookupKey fs "Error") then
           (match pyIndex (.jobj fs) "Error" with
            | .error e => .error e
            | .ok errObj =>
              match pyIndex errObj "ErrorCode" with
              | .error e => .error e
              | .ok code =>
                match pyIndex errObj "ErrorMessage" with
                | .error e => .error e
                | .ok msg => .error (.apiError code msg))
         else .error .responseParseError) := rfl

/-! ## Claim C9 -/

/-- Evaluation of the PublicFAQSearch branch on a dictionary response. -/
theorem parseFAQStep_obj (fs : List (String × JVal)) :
    parseFAQStep "PublicFAQSearch" "ID" (.jobj fs)
      = (if !truthyOpt (lookupKey fs "ID") then
          (match pyIndex (.jobj fs) "Error" with
           | .error e => .error e
           | .ok errObj =>
             match pyIndex errObj "ErrorCode" with
             | .error e => .error e
             | .ok code =>
               if isNotFAQDataCode code then .ok (.val (.jarr []))
               else parseGeneric "PublicFAQSearch" "ID" (.jobj fs))
         else .ok (.val ((lookupKey fs "ID").getD .jnull))) := rfl

/-- C9 is false on the code for the third case: a PublicFAQSearch response with
an empty result and no `Error` object raises a raw `KeyError` at the direct
`result_json["Error"]` lookup instead of falling through to the generic rule
(which would raise `ResponseParseError`). -/
theorem c9_counterexample :
    parseAndValidateResponse "PublicFAQSearch" (.jobj []) = .error (.keyError "Error") ∧
    genericPath "ID" (.jobj []) = .error .responseParseError ∧
    parseAndValidateResponse "PublicFAQSearch" (.jobj [])
      ≠ (genericPath "ID" (.jobj [])).map PyResult.val :=
  ⟨rfl, rfl, fun h => PyErr.noConfusion (Except.error.inj h)⟩

/-- C9 (amended): for PublicFAQSearch with an empty result under the declared
key `ID`: a present `Error` object whose `ErrorCode` is the no-FAQ-data code
yields success with the empty list; a present `Error` object with any other
code (and an `ErrorMessage`) yields `APIError`; but when the `Error` object is
absent the direct lookup raises `KeyError` rather than falling through to the
generic rule.  A truthy result under `ID` is returned as-is. -/
theorem c9_public_faq_search_classification (fs : List (String × JVal))
    (hempty : truthyOpt (lookupKey fs "ID") = false) :
    (∀ e, lookupKey fs "Error" = some e →
      pyIndex e "ErrorCode" = .ok (.jstr "PublicFAQSearch.NotFAQData") →
      parseAndValidateResponse "PublicFAQSearch" (.jobj fs) = .ok (.val (.jarr []))) ∧
    (∀ e code msg, lookupKey fs "Error" = some e →
      pyIndex e "ErrorCode" = .ok code → isNotFAQDataCode code = false →
      pyIndex e "ErrorMessage" = .ok msg →
      parseAndValidateResponse "PublicFAQSearch" (.jobj fs)
        = .error (.apiError code msg)) ∧
    (lookupKey fs "Error" = none →
      parseAndValidateResponse "PublicFAQSearch" (.jobj fs)
        = .error (.keyError "Error")) := by
  refine ⟨?_, ?_, ?_⟩
  · intro e he hc
    rw [parse_dispatch_publicFAQSearch, parseFAQStep_obj]
    simp [hempty, pyIndex_obj_some he, hc, isNotFAQDataCode]
  · intro e code msg he hc hnc hm
    have hte : truthy e = true := pyIndex_ok_truthy hc
    have he2 : truthyOpt (lookupKey fs "Error") = true := by rw [he]; exact hte
    rw [parse_dispatch_publicFAQSearch, parseFAQStep_obj]
    simp [hempty, pyIndex_obj_some he, hc, hnc, parseGeneric, genericPath_obj,
      he2, hm, parsePost]
  · intro he
    rw [parse_dispatch_publicFAQSearch, parseFAQStep_obj]
    simp [hempty, pyIndex_obj_none he]

/-- Witness for C9 at concrete responses. -/
theorem c9_public_faq_search_classification_witness :
    truthyOpt (lookupKey [("Error", JVal.jobj [("ErrorCode",
        JVal.jstr "PublicFAQSearch.NotFAQData"), ("ErrorMessage", JVal.jstr "m")])] "ID")
      = false ∧
    parseAndValidateResponse "PublicFAQSearch"
        (.jobj [("Error", .jobj [("ErrorCode", .jstr "PublicFAQSearch.NotFAQData"),
                                 ("ErrorMessage", .jstr "m")])])
      = .ok (.val (.jarr [])) ∧
    parseAndValidateResponse "PublicFAQSearch"
        (.jobj [("Error", .jobj [("ErrorCode", .jstr "Other"),
                                 ("ErrorMessage", .jstr "m")])])
      = .error (.apiError (.jstr "Other") (.jstr "m")) ∧
    parseAndValidateResponse "PublicFAQSearch" (.jobj [("ID", .jarr [])])
      = .error (.keyError "Error") :=
  ⟨rfl,
   (c9_public_faq_search_classification
      [("Error", .jobj [("ErrorCode", .jstr "PublicFAQSearch.NotFAQData"),
                        ("ErrorMessage", .jstr "m")])] rfl).1
     (.jobj [("ErrorCode", .jstr "PublicFAQSearch.NotFAQData"),
             ("ErrorMessage", .jstr "m")]) rfl rfl,
   ((c9_public_faq_search_classification
      [("Error", .jobj [("ErrorCode", .jstr "Other"), ("ErrorMessage", .jstr "m")])]
      rfl).2.1
     (.jobj [("ErrorCode", .jstr "Other"), ("ErrorMessage", .jstr "m")])
     (.jstr "Other") (.jstr "m") rfl rfl rfl rfl),
   (c9_public_faq_search_classification [("ID", .jarr [])] rfl).2.2 rfl⟩

/-! ## Claim C2 -/

/-- C2: the generic precedence of `_parse_and_validate_response` (src/lib.py
lines 1957-1974): a truthy value under the declared result key is the result;
otherwise a truthy `Error` object (carrying `ErrorCode` and `ErrorMessage`)
raises `APIError` with that code and message; otherwise `ResponseParseError` is
raised.  For every operation matching none of the four special-case checks the
full interpreter reduces to this generic rule (with the result wrapped verbatim
for operations without ticket post-processing, and errors propagated unchanged
for all of them). -/
theorem c2_generic_precedence (rt : String) (fs : List (String × JVal)) :
    (∀ v, lookupKey fs rt = some v → truthy v = true →
      genericPath rt (.jobj fs) = .ok v) ∧
    (truthyOpt (lookupKey fs rt) = false →
      ∀ e code msg, lookupKey fs "Error" = some e →
        pyIndex e "ErrorCode" = .ok code → pyIndex e "ErrorMessage" = .ok msg →
        genericPath rt (.jobj fs) = .error (.apiError code msg)) ∧
    (truthyOpt (lookupKey fs rt) = false → truthyOpt (lookupKey fs "Error") = false →
      genericPath rt (.jobj fs) = .error .responseParseError) ∧
    (∀ op spec, wsConfigLookup op = some spec →
      (op == "TicketSearch") = false →
      (op == "LinkAdd" || op == "LinkDelete" || op == "LinkDeleteAll") = false →
      strSubstr op "LinkList" = false → strSubstr op "PublicFAQSearch" = false →
      (op == "TicketGet") = false → (op == "TicketGetList") = false →
      parseAndValidateResponse op (.jobj fs)
        = (genericPath spec.result (.jobj fs)).map PyResult.val) ∧
    (∀ op spec err, wsConfigLookup op = some spec →
      (op == "TicketSearch") = false →
      (op == "LinkAdd" || op == "LinkDelete" || op == "LinkDeleteAll") = false →
      strSubstr op "LinkList" = false → strSubstr op "PublicFAQSearch" = false →
      genericPath spec.result (.jobj fs) = .error err →
      parseAndValidateResponse op (.jobj fs) = .error err) := by
  refine ⟨?_, ?_, ?_, ?_, ?_⟩
  · intro v hv htv
    simp [genericPath, pyDictGet, hv, truthyOpt, htv]
  · intro hf e code msg he hc hm
    have hte : truthy e = true := pyIndex_ok_truthy hc
    have he2 : truthyOpt (lookupKey fs "Error") = true := by rw [he]; exact hte
    rw [genericPath_obj]
    simp [hf, he2, pyIndex_obj_some he, hc, hm]
  · intro hf hne
    simp [genericPath, pyDictGet, hf, hne]
  · intro op spec hlk hts hlm hll hfq h1 h2
    rw [parse_dispatch_generic op spec _ hlk hts hlm hll hfq]
    exact parseGeneric_map_val op spec.result _ h1 h2
  · intro op spec err hlk hts hlm hll hfq herr
    rw [parse_dispatch_generic op spec _ hlk hts hlm hll hfq]
    simp [parseGeneric, herr]

/-- Witness for C2 at concrete inputs: success, APIError and ResponseParseError
cases of the generic rule, and the reduction of the full interpreter for the
generic operation `TicketCreate`. -/
theorem c2_generic_precedence_witness :
    genericPath "TicketID" (.jobj [("TicketID", .jstr "5")]) = .ok (.jstr "5") ∧
    genericPath "TicketID"
        (.jobj [("Error", .jobj [("ErrorCode", .jstr "c"), ("ErrorMessage", .jstr "m")])])
      = .error (.apiError (.jstr "c") (.jstr "m")) ∧
    genericPath "TicketID" (.jobj [("Junk", .jnum 1)]) = .error .responseParseError ∧
    parseAndValidateResponse "TicketCreate" (.jobj [("TicketID", .jstr "5")])
      = (genericPath "TicketID" (.jobj [("TicketID", .jstr "5")])).map PyResult.val :=
  ⟨(c2_generic_precedence "TicketID" [("TicketID", .jstr "5")]).1 (.jstr "5") rfl rfl,
   (c2_generic_precedence "TicketID"
      [("Error", .jobj [("ErrorCode", .jstr "c"), ("ErrorMessage", .jstr "m")])]).2.1
     rfl (.jobj [("ErrorCode", .jstr "c"), ("ErrorMessage", .jstr "m")])
     (.jstr "c") (.jstr "m") rfl rfl rfl,
   (c2_generic_precedence "TicketID" [("Junk", .jnum 1)]).2.2.1 rfl rfl,
   (c2_generic_precedence "TicketID" [("TicketID", .jstr "5")]).2.2.2.1
     "TicketCreate" ⟨"POST", "/Ticket", "TicketID"⟩ rfl rfl rfl rfl rfl rfl rfl⟩

/-! ## Claim C10 -/

/-- URL construction for `TicketGet`: a falsy ticket id raises `ValueError`. -/
theorem buildUrl_ticketGet (b p : String) (tid : Option Int) :
    buildUrl b p "TicketGet" tid
      = (if !optIntTruthy tid then .error .valueError
         else .ok (b ++ p ++ ticketConnectorName ++ "/Ticket/"
                    ++ toString (tid.getD 0))) := rfl

/-- URL construction for `TicketUpdate`: a falsy ticket id raises `ValueError`. -/
theorem buildUrl_ticketUpdate (b p : String) (tid : Option Int) :
    buildUrl b p "TicketUpdate" tid
      = (if !optIntTruthy tid then .error .valueError
         else .ok (b ++ p ++ ticketConnectorName ++ "/Update/"
                    ++ toString (tid.getD 0))) := rfl

/-- `_send_request` with a truthy payload for `TicketGet` reaches the URL
construction before any network stage. -/
theorem sendRequest_ticketGet (b p : String) (tid : Option Int) :
    sendRequestPreNetwork b p "TicketGet" true tid
      = (match buildUrl b p "TicketGet" tid with
         | .error e => .error e
         | .ok url => .ok ("GET", url)) := rfl

/-- `_send_request` with a truthy payload for `TicketUpdate` reaches the URL
construction before any network stage. -/
theorem sendRequest_ticketUpdate (b p : String) (tid : Option Int) :
    sendRequestPreNetwork b p "TicketUpdate" true tid
      = (match buildUrl b p "TicketUpdate" tid with
         | .error e => .error e
         | .ok url => .ok ("PATCH", url)) := rfl

/-- C10 is false on the code: `_build_url` for a route with the `:TicketID`
placeholder and no ticket id raises `ValueError` (src/lib.py line 1815), not
`ArgumentMissingError`. -/
theorem c10_counterexample :
    sendRequestPreNetwork "http://otrs.example.com"
        "/otrs/nph-genericinterface.pl/Webservice/" "TicketGet" true none
      = .error .valueError ∧
    isArgumentMissing (sendRequestPreNetwork "http://otrs.example.com"
        "/otrs/nph-genericinterface.pl/Webservice/" "TicketGet" true none)
      = false :=
  ⟨rfl, rfl⟩

/-- C10 (amended): exactly the operations `TicketGet` and `TicketUpdate` carry
the `:TicketID` placeholder in their route, and calling either of them without
a (truthy) ticket id fails with `ValueError` inside `_build_url`, which
`_send_request` evaluates before its network stage. -/
theorem c10_ticket_id_required (b p : String) (op : String)
    (hop : op = "TicketGet" ∨ op = "TicketUpdate") (tid : Option Int)
    (htid : optIntTruthy tid = false) :
    ((wsConfig.filter (fun q => strSubstr ":TicketID" q.2.route)).map Prod.fst
        = ["TicketGet", "TicketUpdate"]) ∧
    buildUrl b p op tid = .error .valueError ∧
    sendRequestPreNetwork b p op true tid = .error .valueError := by
  refine ⟨rfl, ?_, ?_⟩ <;> rcases hop with rfl | rfl
  · rw [buildUrl_ticketGet, htid]; rfl
  · rw [buildUrl_ticketUpdate, htid]; rfl
  · rw [sendRequest_ticketGet, buildUrl_ticketGet, htid]; rfl
  · rw [sendRequest_ticketUpdate, buildUrl_ticketUpdate, htid]; rfl

/-- Witness for C10 at `TicketGet` with no ticket id supplied. -/
theorem c10_ticket_id_required_witness :
    optIntTruthy none = false ∧
    buildUrl "http://otrs.example.com" "/otrs/nph-genericinterface.pl/Webservice/"
        "TicketGet" none = .error .valueError ∧
    sendRequestPreNetwork "http://otrs.example.com"
        "/otrs/nph-genericinterface.pl/Webservice/" "TicketGet" true none
      = .error .valueError :=
  ⟨rfl,
   (c10_ticket_id_required "http://otrs.example.com"
      "/otrs/nph-genericinterface.pl/Webservice/" "TicketGet" (Or.inl rfl) none rfl).2.1,
   (c10_ticket_id_required "http://otrs.example.com"
      "/otrs/nph-genericinterface.pl/Webservice/" "TicketGet" (Or.inl rfl) none rfl).2.2⟩

/-! ## Claim C6 -/

/-- C6: a credential file whose owner uid differs from the process uid or whose
mode bits (lower 9 bits) are not exactly 0600 fails the trust check; `read()`
then returns absent and `write()` refuses with `IOError` instead of
overwriting. -/
theorem c6_untrusted_file_rejected (f : FileRecord) (procUid : Nat)
    (h : f.uid ≠ procUid ∨ f.mode &&& 511 ≠ 384) (tmo now : Int) (nv : String)
    (post : FSState) :
    trustedFile f procUid = false ∧
    validateFileOwnerAndPermissions (.file f) procUid = .ok false ∧
    sessionStoreRead (.file f) procUid tmo now = .ok none ∧
    sessionStoreWrite (.file f) procUid nv post
      = .error (.ioError "File exists but is not ok (wrong owner/permissions)!") := by
  have ht : trustedFile f procUid = false := by
    rcases h with h | h
    · have hb : (f.uid == procUid) = false := beq_eq_false_iff_ne.mpr h
      simp [trustedFile, hb]
    · have hb : (f.mode &&& 511 == 384) = false := beq_eq_false_iff_ne.mpr h
      simp [trustedFile, hb]
  exact ⟨ht, by simp [validateFileOwnerAndPermissions, ht],
    by simp [sessionStoreRead, ht], by simp [sessionStoreWrite, ht]⟩

/-- Witness for C6: file with mode 0644 owned by the right uid. -/
theorem c6_untrusted_file_rejected_witness :
    ((420 : Nat) &&& 511 ≠ 384) ∧
    sessionStoreRead (.file ⟨1000, 420, some (.jobj [("session_id", .jstr "tok"),
        ("created", .jnum 100)])⟩) 1000 480 0 = .ok none ∧
    sessionStoreWrite (.file ⟨1000, 420, none⟩) 1000 "x" .noFile
      = .error (.ioError "File exists but is not ok (wrong owner/permissions)!") :=
  ⟨by decide,
   (c6_untrusted_file_rejected ⟨1000, 420, some (.jobj [("session_id", .jstr "tok"),
      ("created", .jnum 100)])⟩ 1000 (Or.inr (by decide)) 480 0 "x" .noFile).2.2.1,
   (c6_untrusted_file_rejected ⟨1000, 420, none⟩ 1000 (Or.inr (by decide)) 480 0 "x"
      .noFile).2.2.2⟩

/-! ## Claim C3 -/

/-- C3: session restore.  With a truthy cached token: a successful validity
probe reuses the token with no session-create and no store write; a probe
failing with `APIError` clears the store (empty write), performs a
session-create and persists the new token; any non-`APIError` probe failure
propagates unchanged with no store write and no session-create. -/
theorem c3_session_restore_transitions (v : String) (hv : (v == "") = false) :
    (∀ createRes newId w1 w2,
      sessionRestoreOrSetUpNew (some v) (.ok true) createRes newId w1 w2
        = (.ok true, [.probe v], some v)) ∧
    (∀ code msg newId,
      sessionRestoreOrSetUpNew (some v) (.error (.apiError code msg)) (.ok true) newId
          (.ok true) (.ok true)
        = (.ok true, [.probe v, .storeWrite "", .createSession, .storeWrite newId],
            some newId)) ∧
    (∀ e, isAPIError (Except.error e : Except PyErr Bool) = false →
      ∀ createRes newId w1 w2,
        sessionRestoreOrSetUpNew (some v) (.error e) createRes newId w1 w2
          = (.error e, [.probe v], some v)) := by
  refine ⟨?_, ?_, ?_⟩
  · intro createRes newId w1 w2
    simp [sessionRestoreOrSetUpNew, hv]
  · intro code msg newId
    simp [sessionRestoreOrSetUpNew, hv]
  · intro e he createRes newId w1 w2
    cases e <;> simp_all [sessionRestoreOrSetUpNew, isAPIError]

/-- Witness for C3 with a concrete cached token and outcomes. -/
theorem c3_session_restore_transitions_witness :
    (("tok" == "") = false) ∧
    sessionRestoreOrSetUpNew (some "tok") (.ok true) (.ok true) "new" (.ok true) (.ok true)
      = (.ok true, [.probe "tok"], some "tok") ∧
    sessionRestoreOrSetUpNew (some "tok") (.error (.apiError (.jstr "c") (.jstr "m")))
        (.ok true) "new" (.ok true) (.ok true)
      = (.ok true, [.probe "tok", .storeWrite "", .createSession, .storeWrite "new"],
          some "new") ∧
    sessionRestoreOrSetUpNew (some "tok") (.error .httpError) (.ok true) "new"
        (.ok true) (.ok true)
      = (.error .httpError, [.probe "tok"], some "tok") :=
  ⟨rfl,
   (c3_session_restore_transitions "tok" rfl).1 (.ok true) "new" (.ok true) (.ok true),
   (c3_session_restore_transitions "tok" rfl).2.1 (.jstr "c") (.jstr "m") "new",
   (c3_session_restore_transitions "tok" rfl).2.2 .httpError rfl (.ok true) "new"
     (.ok true) (.ok true)⟩

/-! ## Claim C4 -/

/-- C4: every ticket, FAQ and link operation method checks the session store
value first and raises `SessionNotCreated` when it is empty or unset, before
the `_send_request` stage (the `sent` outcome) can be reached. -/
theorem c4_operations_require_session (v : Option String) (hv : optStrTruthy v = false) :
    (∀ t a att df, ticket_create v t a att df = .failed .sessionNotCreated) ∧
    (∀ tid b1 b2 b3 b4, ticket_get_by_id v tid b1 b2 b3 b4 = .failed .sessionNotCreated) ∧
    (∀ ids b1 b2 b3 b4,
      ticket_get_by_list v ids b1 b2 b3 b4 = .failed .sessionNotCreated) ∧
    (∀ dfs kw, ticket_search v dfs kw = .failed .sessionNotCreated) ∧
    (∀ tid a att df kw, ticket_update v tid a att df kw = .failed .sessionNotCreated) ∧
    (faq_language_list v = .failed .sessionNotCreated) ∧
    (faq_category_list v = .failed .sessionNotCreated) ∧
    (∀ ids ac, faq_public_faq_get v ids ac = .failed .sessionNotCreated) ∧
    (∀ w n t sd, faq_public_faq_search v w n t sd = .failed .sessionNotCreated) ∧
    (∀ s d st dt lt stt, link_add v s d st dt lt stt = .failed .sessionNotCreated) ∧
    (∀ s d st dt lt, link_delete v s d st dt lt = .failed .sessionNotCreated) ∧
    (∀ oid ot, link_delete_all v oid ot = .failed .sessionNotCreated) ∧
    (∀ sid st dt stt lt dir, link_list v sid st dt stt lt dir = .failed .sessionNotCreated) ∧
    (link_possible_link_list v = .failed .sessionNotCreated) ∧
    (∀ ot, link_possible_objects_list v ot = .failed .sessionNotCreated) ∧
    (∀ st dt, link_possible_types_list v st dt = .failed .sessionNotCreated) := by
  refine ⟨?_, ?_, ?_, ?_, ?_, ?_, ?_, ?_, ?_, ?_, ?_, ?_, ?_, ?_, ?_, ?_⟩ <;>
    intros <;>
    simp [ticket_create, ticket_get_by_id, ticket_get_by_list, ticket_search,
      ticket_update, faq_language_list, faq_category_list, faq_public_faq_get,
      faq_public_faq_search, link_add, link_delete, link_delete_all, link_list,
      link_possible_link_list, link_possible_objects_list,
      link_possible_types_list, hv]

/-- Witness for C4 with no session value and with an empty session value. -/
theorem c4_operations_require_session_witness :
    optStrTruthy none = false ∧
    ticket_search none [] [] = .failed .sessionNotCreated ∧
    link_list (some "") 1 "Ticket" none "Valid" none none
      = .failed .sessionNotCreated ∧
    faq_language_list none = .failed .sessionNotCreated :=
  ⟨rfl,
   (c4_operations_require_session none rfl).2.2.2.1 [] [],
   (c4_operations_require_session (some "") rfl).2.2.2.2.2.2.2.2.2.2.2.2.1
     1 "Ticket" none "Valid" none none,
   (c4_operations_require_session none rfl).2.2.2.2.2.1⟩

/-! ## Claim C5 -/

/-- C5 is false on the code for the never-raises part: a trusted record whose
`created` field is JSON `null` makes `int(data['created'])` raise `TypeError`,
which the `except Exception` handler re-raises as a generic `Exception`
(src/lib.py line 778) instead of returning absent. -/
theorem c5_counterexample :
    sessionStoreRead (.file ⟨1000, 384, some (.jobj [("session_id", .jstr "tok"),
        ("created", .jnull)])⟩) 1000 480 0 = .error .genericException := rfl

/-- C5 (amended): `read()` returns the cached token exactly when the file
exists, passes the trust check, parses as JSON carrying `session_id` and an
int-convertible `created`, and the current time is strictly before `created`
plus the configured timeout; a missing file, untrusted file, parse failure
(`ValueError`), missing field (`KeyError`) or elapsed expiry returns absent
without raising — but a `created` field of a type not convertible to int
(`TypeError`) re-raises as a generic `Exception` rather than returning absent. -/
theorem c5_session_store_read_contract (f : FileRecord) (procUid : Nat)
    (tmo now : Int) :
    (sessionStoreRead .noFile procUid tmo now = .ok none) ∧
    (trustedFile f procUid = false →
      sessionStoreRead (.file f) procUid tmo now = .ok none) ∧
    (trustedFile f procUid = true → f.parsed = none →
      sessionStoreRead (.file f) procUid tmo now = .ok none) ∧
    (∀ d, trustedFile f procUid = true → f.parsed = some (.jobj d) →
      (lookupKey d "session_id" = none →
        sessionStoreRead (.file f) procUid tmo now = .ok none) ∧
      (∀ tok, lookupKey d "session_id" = some tok →
        (lookupKey d "created" = none →
          sessionStoreRead (.file f) procUid tmo now = .ok none) ∧
        (∀ c n, lookupKey d "created" = some c → pyInt c = .ok n →
          (now < n + tmo * 60 →
            sessionStoreRead (.file f) procUid tmo now = .ok (some tok)) ∧
          (n + tmo * 60 ≤ now →
            sessionStoreRead (.file f) procUid tmo now = .ok none)) ∧
        (∀ c, lookupKey d "created" = some c → pyInt c = .error .typeError →
          sessionStoreRead (.file f) procUid tmo now = .error .genericException) ∧
        (∀ c, lookupKey d "created" = some c → pyInt c = .error .valueError →
          sessionStoreRead (.file f) procUid tmo now = .ok none))) ∧
    (∀ tok, sessionStoreRead (.file f) procUid tmo now = .ok (some tok) →
      trustedFile f procUid = true ∧
      ∃ d c n, f.parsed = some d ∧ pyIndex d "session_id" = .ok tok ∧
        pyIndex d "created" = .ok c ∧ pyInt c = .ok n ∧ now < n + tmo * 60) := by
  refine ⟨rfl, ?_, ?_, ?_, ?_⟩
  · intro ht
    simp [sessionStoreRead, ht]
  · intro ht hp
    simp [sessionStoreRead, ht, hp]
  · intro d ht hp
    refine ⟨?_, ?_⟩
    · intro hs
      simp [sessionStoreRead, ht, hp, pyIndex_obj_none hs]
    · intro tok hs
      refine ⟨?_, ?_, ?_, ?_⟩
      · intro hcre
        simp [sessionStoreRead, ht, hp, pyIndex_obj_some hs, pyIndex_obj_none hcre]
      · intro c n hc hn
        refine ⟨?_, ?_⟩
        · intro hlt
          simp [sessionStoreRead, ht, hp, pyIndex_obj_some hs, pyIndex_obj_some hc,
            hn, hlt]
        · intro hge
          simp [sessionStoreRead, ht, hp, pyIndex_obj_some hs, pyIndex_obj_some hc,
            hn, not_lt.mpr hge]
      · intro c hc hn
        simp [sessionStoreRead, ht, hp, pyIndex_obj_some hs, pyIndex_obj_some hc, hn]
      · intro c hc hn
        simp [sessionStoreRead, ht, hp, pyIndex_obj_some hs, pyIndex_obj_some hc, hn]
  · intro tok h
    simp only [sessionStoreRead] at h
    by_cases ht : trustedFile f procUid = true
    · simp only [ht, Bool.not_true, Bool.false_eq_true, if_false] at h
      cases hp : f.parsed with
      | none => rw [hp] at h; exact absurd h (by simp)
      | some data =>
        rw [hp] at h
        cases hs : pyIndex data "session_id" with
        | error e => simp only [hs] at h; cases e <;> simp at h
        | ok v =>
          simp only [hs] at h
          cases hc : pyIndex data "created" with
          | error e2 => simp only [hc] at h; cases e2 <;> simp at h
          | ok c =>
            simp only [hc] at h
            cases hn : pyInt c with
            | error e3 => simp only [hn] at h; cases e3 <;> simp at h
            | ok n =>
              simp only [hn] at h
              by_cases hlt : now < n + tmo * 60
              · simp only [hlt, if_true] at h
                simp only [Except.ok.injEq, Option.some.injEq] at h
                subst h
                exact ⟨ht, data, c, n, rfl, hs, hc, hn, hlt⟩
              · simp [hlt] at h
    · simp only [Bool.not_eq_true] at ht
      simp [ht] at h

/-- Witness for C5: a trusted record with `created = 100` and a one-minute
timeout is returned at `now = 120` and absent at `now = 160`. -/
theorem c5_session_store_read_contract_witness :
    trustedFile ⟨1000, 384, some (.jobj [("session_id", .jstr "tok"),
        ("created", .jnum 100)])⟩ 1000 = true ∧
    sessionStoreRead (.file ⟨1000, 384, some (.jobj [("session_id", .jstr "tok"),
        ("created", .jnum 100)])⟩) 1000 1 120 = .ok (some (.jstr "tok")) ∧
    sessionStoreRead (.file ⟨1000, 384, some (.jobj [("session_id", .jstr "tok"),
        ("created", .jnum 100)])⟩) 1000 1 160 = .ok none :=
  ⟨rfl,
   ((((c5_session_store_read_contract ⟨1000, 384, some (.jobj [("session_id", .jstr "tok"),
        ("created", .jnum 100)])⟩ 1000 1 120).2.2.2.1
      [("session_id", .jstr "tok"), ("created", .jnum 100)] rfl rfl).2 (.jstr "tok")
      rfl).2.1 (.jnum 100) 100 rfl rfl).1 (by decide),
   ((((c5_session_store_read_contract ⟨1000, 384, some (.jobj [("session_id", .jstr "tok"),
        ("created", .jnum 100)])⟩ 1000 1 160).2.2.2.1
      [("session_id", .jstr "tok"), ("created", .jnum 100)] rfl rfl).2 (.jstr "tok")
      rfl).2.1 (.jnum 100) 100 rfl rfl).2 (by decide)⟩
